import Mathlib

/-!
Verification of the camstream real-time media session lifecycle manager.

The viewer-side connection controller (`WebRTCService` in
`frontend/src/services/webrtc.ts`) is embedded as a pure state-transition
system: the mutable fields of the class become a `WState` record, each
handler/method becomes a function `WState → WState` (or takes an
environment describing the outcomes of awaited steps), and `emit` events
are recorded in an append-only trace.  Timers (`setTimeout`) are modelled
by recording the scheduled delay in an `Option Nat` field, and the external
effects of `connect()` are recorded as an ordered `Action` trace.

The session-side manager (`backend/app/camera/webrtc_stream.py`) is present
in the repository only as a compiled artifact whose non-ASCII bytes were
destroyed, so its Python source is unavailable; those components are
modelled from the specification (and the docstrings/log strings recoverable
from the artifact), as noted on each such definition.
-/

namespace Camstream

/-! ## Definitions: viewer-side connection controller -/

/-- The connection state vocabulary of the viewer-side controller
(`ConnectionState` in `frontend/src/services/webrtc.ts`). -/
inductive ConnectionState where
  | new
  | connecting
  | connected
  | disconnected
  | reconnecting
  | failed
  | closed
deriving DecidableEq, Repr

/-- Events emitted by the controller through its `emit` method. -/
inductive WEvent where
  | connectionStateChange (s : ConnectionState)
  | connected
  | maxReconnectAttemptsReached
  | track
deriving DecidableEq, Repr

/-- A locally generated ICE candidate (`RTCIceCandidateInit`). -/
structure RTCIceCandidateInit where
  candidate : String
  sdpMid : Option String
  sdpMLineIndex : Option Nat
deriving DecidableEq, Repr

/-- The mutable fields of `WebRTCService`.  `reconnectTimer` records the
delay (ms) of a pending reconnect timer; `pendingRecovery` records the
delay of a recovery `attemptReconnect` scheduled by `endMediaOperation`;
`disconnectCheckPending` records the 3-second re-check timer set by
`handleDisconnected`; `emitted` is the trace of emitted events. -/
structure WState where
  connectionState : ConnectionState
  sessionId : Option String
  pendingCandidates : List RTCIceCandidateInit
  reconnectTimer : Option Nat
  reconnectAttempts : Nat
  isReconnecting : Bool
  recoveryMode : Bool
  mediaOperationInProgress : Bool
  hasPeerConnection : Bool
  hasStream : Bool
  disconnectCheckPending : Bool
  pendingRecovery : Option Nat
  emitted : List WEvent
deriving DecidableEq, Repr

/-- `maxReconnectAttempts = 5` in `WebRTCService`. -/
def maxReconnectAttempts : Nat := 5

/-- Append one emitted event to the trace (`WebRTCService.emit`). -/
def emitEvent (e : WEvent) (st : WState) : WState :=
  { st with emitted := st.emitted ++ [e] }

/-- `WebRTCService.updateConnectionState`: assign the state and emit a
`connectionStateChange` event only when the new state differs. -/
def updateConnectionState (s : ConnectionState) (st : WState) : WState :=
  if st.connectionState ≠ s then
    { st with
      connectionState := s
      emitted := st.emitted ++ [WEvent.connectionStateChange s] }
  else
    st

/-- `WebRTCService.scheduleReconnect`: guarded by `isReconnecting` and an
already-pending timer; increments the attempt counter; past
`maxReconnectAttempts` transitions to `failed` and emits
`maxReconnectAttemptsReached` with no timer; otherwise schedules a timer
with delay `min (1000 * 2 ^ (attempt - 1)) 10000`. -/
def scheduleReconnect (st : WState) : WState :=
  if st.isReconnecting || st.reconnectTimer.isSome then st
  else
    let st1 := { st with
      isReconnecting := true
      reconnectAttempts := st.reconnectAttempts + 1 }
    if st1.reconnectAttempts > maxReconnectAttempts then
      emitEvent WEvent.maxReconnectAttemptsReached
        (updateConnectionState ConnectionState.failed st1)
    else
      let delay := min (1000 * 2 ^ (st1.reconnectAttempts - 1)) 10000
      { updateConnectionState ConnectionState.reconnecting st1 with
        reconnectTimer := some delay }

/-- Browser ICE connection states (`RTCIceConnectionState`). -/
inductive RTCIceConnectionState where
  | new
  | checking
  | connected
  | completed
  | disconnected
  | failed
  | closed
deriving DecidableEq, Repr

/-- `WebRTCService.handleIceConnectionStateChange`: the switch over
`peerConnection.iceConnectionState`. -/
def handleIceConnectionStateChange (ice : RTCIceConnectionState)
    (st : WState) : WState :=
  match ice with
  | RTCIceConnectionState.connected | RTCIceConnectionState.completed =>
      if st.connectionState ≠ ConnectionState.connected then
        emitEvent WEvent.connected
          (updateConnectionState ConnectionState.connected st)
      else st
  | RTCIceConnectionState.disconnected =>
      if !st.mediaOperationInProgress then
        updateConnectionState ConnectionState.disconnected st
      else st
  | RTCIceConnectionState.failed =>
      if !st.mediaOperationInProgress then
        scheduleReconnect (updateConnectionState ConnectionState.failed st)
      else { st with recoveryMode := true }
  | _ => st

/-- `WebRTCService.handleConnected`: reached on peer connection state
`connected`. -/
def handleConnected (st : WState) : WState :=
  emitEvent WEvent.connected
    { updateConnectionState ConnectionState.connected st with
      reconnectAttempts := 0
      isReconnecting := false
      recoveryMode := false }

/-- `WebRTCService.handleDisconnected`: outside a media operation the
state becomes `disconnected` and a 3-second re-check timer is set; during
a media operation only the recovery flag is recorded. -/
def handleDisconnected (st : WState) : WState :=
  if !st.mediaOperationInProgress then
    { updateConnectionState ConnectionState.disconnected st with
      disconnectCheckPending := true }
  else { st with recoveryMode := true }

/-- `WebRTCService.handleFailed`: outside a media operation the state
becomes `failed` and a reconnect is scheduled; during a media operation
only the recovery flag is recorded. -/
def handleFailed (st : WState) : WState :=
  if !st.mediaOperationInProgress then
    scheduleReconnect (updateConnectionState ConnectionState.failed st)
  else { st with recoveryMode := true }

/-- `WebRTCService.handleClosed`. -/
def handleClosed (st : WState) : WState :=
  updateConnectionState ConnectionState.closed st

/-- `WebRTCService.beginMediaOperation`. -/
def beginMediaOperation (st : WState) : WState :=
  { st with mediaOperationInProgress := true }

/-- `WebRTCService.endMediaOperation`: clears the flag; if a failure was
suppressed (recovery mode), clears the recovery flag and schedules a
recovery `attemptReconnect` after 500 ms. -/
def endMediaOperation (st : WState) : WState :=
  let st1 := { st with mediaOperationInProgress := false }
  if st1.recoveryMode then
    { st1 with recoveryMode := false, pendingRecovery := some 500 }
  else st1

/-- `WebRTCService.cleanupPeerConnection`: stops transceivers, clears the
video element and closes the peer connection; touches neither the session
id nor the remote stream nor the reconnect bookkeeping. -/
def cleanupPeerConnection (st : WState) : WState :=
  { st with hasPeerConnection := false }

/-- `WebRTCService.cleanupConnection`: full cleanup — stops the stream,
closes the peer connection, clears the session id, the queued candidates,
the reconnect state and any pending timer. -/
def cleanupConnection (st : WState) : WState :=
  { st with
    hasStream := false
    hasPeerConnection := false
    sessionId := none
    pendingCandidates := []
    isReconnecting := false
    reconnectAttempts := 0
    reconnectTimer := none }

/-- The parsed body of the answer returned by `POST webrtc/offer`. -/
structure OfferResponse where
  sdpType : String
  sdp : String
  session_id : Option String
deriving DecidableEq, Repr

/-- The outcomes of the awaited steps inside `connect()`: offer creation,
local description, the time (ms) at which local ICE gathering completes,
the signaling round-trip (covers both a rejected response and a network
failure), and the remote description application. -/
structure ConnectEnv where
  createOfferResult : Except String Unit
  setLocalResult : Except String Unit
  gatherCompleteTime : Nat
  offerResponse : Except String OfferResponse
  setRemoteResult : Except String Unit
deriving Repr

/-- Externally observable steps performed by `connect()`. -/
inductive Action where
  | createPeerConnection
  | createOffer
  | setLocalDescription
  | waitIceGathering (ms : Nat)
  | postOffer (sessionId : Option String)
  | setRemoteDescription
  | sendCandidate (c : RTCIceCandidateInit)
deriving DecidableEq, Repr

/-- Result of a `connect()`-based operation: the final controller state,
the ordered action trace, and the error propagated to the caller, if
any. -/
structure ConnectResult where
  state : WState
  actions : List Action
  thrown : Option String
deriving DecidableEq, Repr

/-- The `catch` branch of `connect()`: mark `failed`; outside a media
operation clean up the peer connection and schedule a reconnect; during
one, set the recovery flag instead; rethrow either way. -/
def connectCatch (e : String) (st : WState) (acts : List Action) :
    ConnectResult :=
  let stf := updateConnectionState ConnectionState.failed st
  if !stf.mediaOperationInProgress then
    { state := scheduleReconnect (cleanupPeerConnection stf)
      actions := acts
      thrown := some e }
  else
    { state := { stf with recoveryMode := true }
      actions := acts
      thrown := some e }

/-- `WebRTCService.connect`: no-op when already `connected` or
`connecting`; otherwise transition to `connecting`, create a fresh peer
connection, create an offer, set the local description, wait for ICE
gathering completion raced against a 2000 ms timeout, post the offer
(with the current session id), store the returned session id, apply the
answer as remote description, and flush the candidates queued before a
session id existed. -/
def connect (env : ConnectEnv) (st : WState) : ConnectResult :=
  if st.connectionState = ConnectionState.connected then
    { state := st, actions := [], thrown := none }
  else if st.connectionState = ConnectionState.connecting then
    { state := st, actions := [], thrown := none }
  else
    let st1 := updateConnectionState ConnectionState.connecting st
    let st2 := { st1 with hasPeerConnection := true }
    let acts1 := [Action.createPeerConnection]
    match env.createOfferResult with
    | Except.error e => connectCatch e st2 acts1
    | Except.ok _ =>
      let acts2 := acts1 ++ [Action.createOffer]
      match env.setLocalResult with
      | Except.error e => connectCatch e st2 acts2
      | Except.ok _ =>
        let acts3 := acts2 ++
          [Action.setLocalDescription,
           Action.waitIceGathering (min env.gatherCompleteTime 2000)]
        let acts4 := acts3 ++ [Action.postOffer st2.sessionId]
        match env.offerResponse with
        | Except.error e => connectCatch e st2 acts4
        | Except.ok data =>
          let st3 :=
            match data.session_id with
            | some sid => { st2 with sessionId := some sid }
            | none => st2
          match env.setRemoteResult with
          | Except.error e =>
              connectCatch e st3 (acts4 ++ [Action.setRemoteDescription])
          | Except.ok _ =>
            let acts5 := acts4 ++ [Action.setRemoteDescription]
            if st3.pendingCandidates ≠ [] ∧ st3.sessionId.isSome then
              { state := { st3 with pendingCandidates := [] }
                actions := acts5
                  ++ st3.pendingCandidates.map Action.sendCandidate
                thrown := none }
            else
              { state := st3, actions := acts5, thrown := none }

/-- Do all awaited steps of `connect()` succeed in this environment? -/
def connectEnvOk (env : ConnectEnv) : Bool :=
  (match env.createOfferResult with
   | Except.ok _ => true
   | Except.error _ => false) &&
  (match env.setLocalResult with
   | Except.ok _ => true
   | Except.error _ => false) &&
  (match env.offerResponse with
   | Except.ok _ => true
   | Except.error _ => false) &&
  (match env.setRemoteResult with
   | Except.ok _ => true
   | Except.error _ => false)

/-- `WebRTCService.attemptReconnect`: preserve the session id across peer
connection cleanup, connect with it, clear `isReconnecting` on success
and invoke `scheduleReconnect` on failure. -/
def attemptReconnect (env : ConnectEnv) (st : WState) : ConnectResult :=
  let oldSessionId := st.sessionId
  let st1 := cleanupPeerConnection st
  let st2 := { st1 with sessionId := oldSessionId }
  let r := connect env st2
  match r.thrown with
  | none => { r with state := { r.state with isReconnecting := false } }
  | some _ => { r with state := scheduleReconnect r.state }

/-- `WebRTCService.forceReconnect`: preserve the session id across peer
connection cleanup, then connect. -/
def forceReconnect (env : ConnectEnv) (st : WState) : ConnectResult :=
  let oldSessionId := st.sessionId
  let st1 := cleanupPeerConnection st
  let st2 := { st1 with sessionId := oldSessionId }
  connect env st2

/-- `WebRTCService.disconnect`: no-op when `closed` or `new`; otherwise
delete the server session (when one exists; the Boolean records that the
request was issued), run the full cleanup, and mark `closed`. -/
def disconnect (st : WState) : WState × Bool :=
  if st.connectionState = ConnectionState.closed ∨
     st.connectionState = ConnectionState.new then
    (st, false)
  else
    (updateConnectionState ConnectionState.closed (cleanupConnection st),
     st.sessionId.isSome)

/-- The sequence of values carried by `connectionStateChange` events in
the emitted trace. -/
def stateChanges (st : WState) : List ConnectionState :=
  st.emitted.filterMap (fun e =>
    match e with
    | WEvent.connectionStateChange s => some s
    | _ => none)

/-- Fold a sequence of state assignments through
`updateConnectionState`. -/
def applyUpdates (us : List ConnectionState) (st : WState) : WState :=
  us.foldl (fun s u => updateConnectionState u s) st

/-- Invariant: the `connectionStateChange` trace has no two adjacent
equal values, and its last value (if any) is the current state. -/
def noDupTraceInv (st : WState) : Prop :=
  (stateChanges st).Chain' (fun a b => a ≠ b) ∧
  ∀ x, (stateChanges st).getLast? = some x → x = st.connectionState

/-! ## Definitions: session-side manager (modelled from the spec)

The Python source `backend/app/camera/webrtc_stream.py` is not in the
repository — only `__pycache__/webrtc_stream.cpython-311.pyc` survives,
and every byte ≥ 0x80 of that artifact was destroyed by a lossy text
re-encoding, so its bytecode cannot be decoded.  The definitions below
are modelled from the specification, corroborated by the docstrings,
method names, constants and log strings still readable in the artifact
(`"Using cached frame during camera operation"`,
`"Too many frame errors, marking stream as inactive"`,
`"Detected dead connection for client"`, ...). -/

/-- A frame produced by the capture track: either a real captured frame
(numbered) or the synthesized flat-color placeholder. -/
inductive Frame where
  | real (id : Nat)
  | placeholder
deriving DecidableEq, Repr

/-- The outcome of the underlying capture for one pull: a successful
capture, a busy camera (a concurrent capture operation is in progress),
or a capture failure. -/
inductive CaptureOutcome where
  | success (f : Frame)
  | busy
  | failure
deriving DecidableEq, Repr

/-- Modelled from the spec: the state of `CameraVideoStreamTrack` (the
FrameProducer) — last cached frame, consecutive-error counter,
active/inactive flag and frame counter (§3, §4.1). -/
structure FrameProducer where
  cachedFrame : Option Frame
  errorCount : Nat
  streamActive : Bool
  frameCount : Nat
deriving DecidableEq, Repr

/-- The consecutive-error threshold after which the producer goes
inactive (10, per §4.1). -/
def errorThreshold : Nat := 10

/-- Modelled from the spec: one pull of `CameraVideoStreamTrack.recv`
(`FrameProducer.nextFrame`).  Inactive producers serve cached/placeholder
output; a busy camera serves the cached frame; a success updates the
cache and resets the error counter; a failure increments the counter,
serves the last good frame (placeholder when none exists yet) and marks
the producer inactive when the counter reaches the threshold.  The pull
is total: no outcome raises. -/
def recv (outcome : CaptureOutcome) (p : FrameProducer) :
    Frame × FrameProducer :=
  if !p.streamActive then
    (p.cachedFrame.getD Frame.placeholder, p)
  else
    match outcome with
    | CaptureOutcome.success f =>
        (f, { p with
              cachedFrame := some f
              errorCount := 0
              frameCount := p.frameCount + 1 })
    | CaptureOutcome.busy =>
        (p.cachedFrame.getD Frame.placeholder, p)
    | CaptureOutcome.failure =>
        (p.cachedFrame.getD Frame.placeholder,
         { p with
           errorCount := p.errorCount + 1
           streamActive := decide (p.errorCount + 1 < errorThreshold) })

/-- Modelled from the spec: `CameraVideoStreamTrack.restart` clears the
error counter and reactivates production. -/
def restart (p : FrameProducer) : FrameProducer :=
  { p with errorCount := 0, streamActive := true }

/-- Modelled from the spec: `CameraVideoStreamTrack.stop` marks the
stream inactive. -/
def stop (p : FrameProducer) : FrameProducer :=
  { p with streamActive := false }

/-- `n` consecutive failing pulls. -/
def runFailures : Nat → FrameProducer → FrameProducer
  | 0, p => p
  | n + 1, p => (recv CaptureOutcome.failure (runFailures n p)).2

/-- Modelled from the spec: `WebRTCStreamManager.health_check` sweeps the
per-client connection-state map and tears down exactly the sessions whose
connection state is `failed` or `closed`. -/
def health_check (sessions : List (String × ConnectionState)) :
    List (String × ConnectionState) :=
  sessions.filter (fun cs =>
    decide (cs.2 ≠ ConnectionState.failed ∧ cs.2 ≠ ConnectionState.closed))

/-- Modelled from the spec: `WebRTCStreamManager.close_peer_connection`
(`DELETE session/{id}`): remove the client's session when present; errors
during teardown are caught and logged, and an unknown or already-closed
id is not an error — the call never fails. -/
def close_peer_connection (client : String)
    (reg : List (String × ConnectionState)) :
    Except String (List (String × ConnectionState)) :=
  Except.ok (reg.filter (fun cs => decide (cs.1 ≠ client)))

/-- Did the call succeed? -/
def exceptOk {ε α : Type} (x : Except ε α) : Bool :=
  match x with
  | Except.ok _ => true
  | Except.error _ => false

/-! ## Definitions: concrete fixtures for witnesses -/

/-- A fully concrete controller state: driven to the given connection
state with the given number of reconnect attempts already used. -/
def mkState (cs : ConnectionState) (attempts : Nat) : WState :=
  { connectionState := cs
    sessionId := some "sess-1"
    pendingCandidates := []
    reconnectTimer := none
    reconnectAttempts := attempts
    isReconnecting := false
    recoveryMode := false
    mediaOperationInProgress := false
    hasPeerConnection := true
    hasStream := true
    disconnectCheckPending := false
    pendingRecovery := none
    emitted := [] }

/-- The concrete state used for the media-operation witnesses: a
connected controller on which `beginMediaOperation` has been called. -/
def mediaState : WState :=
  beginMediaOperation (mkState ConnectionState.connected 0)

/-- A concrete queued candidate. -/
def cand1 : RTCIceCandidateInit :=
  { candidate := "candidate:1 1 udp 2122, host", sdpMid := some "0"
    sdpMLineIndex := some 0 }

/-- A concrete successful offer answer. -/
def okResponse : OfferResponse :=
  { sdpType := "answer", sdp := "v=0", session_id := some "sess-1" }

/-- A concrete environment in which every `connect()` step succeeds. -/
def envOkC : ConnectEnv :=
  { createOfferResult := Except.ok ()
    setLocalResult := Except.ok ()
    gatherCompleteTime := 500
    offerResponse := Except.ok okResponse
    setRemoteResult := Except.ok () }

/-- A concrete environment in which the signaling round-trip fails. -/
def envFailC : ConnectEnv :=
  { createOfferResult := Except.ok ()
    setLocalResult := Except.ok ()
    gatherCompleteTime := 500
    offerResponse := Except.error "Server rejected offer: 500"
    setRemoteResult := Except.ok () }

/-- A concrete disconnected state holding one queued candidate. -/
def stDiscC : WState :=
  { mkState ConnectionState.disconnected 0 with
    pendingCandidates := [cand1] }

/-- A concrete producer holding one good cached frame. -/
def producerC : FrameProducer :=
  { cachedFrame := some (Frame.real 7)
    errorCount := 0
    streamActive := true
    frameCount := 8 }

/-- A concrete registry with one session in every state. -/
def registryC : List (String × ConnectionState) :=
  [("a", ConnectionState.connected), ("b", ConnectionState.disconnected),
   ("c", ConnectionState.failed), ("d", ConnectionState.closed),
   ("e", ConnectionState.connecting), ("f", ConnectionState.reconnecting)]

/-! ## Projection lemmas -/

theorem updateConnectionState_connectionState (s : ConnectionState)
    (st : WState) : (updateConnectionState s st).connectionState = s := by
  unfold updateConnectionState
  split
  · rfl
  · next h => simpa using h

@[simp]
theorem updateConnectionState_reconnectTimer (s : ConnectionState)
    (st : WState) :
    (updateConnectionState s st).reconnectTimer = st.reconnectTimer := by
  unfold updateConnectionState; split <;> rfl

@[simp]
theorem updateConnectionState_reconnectAttempts (s : ConnectionState)
    (st : WState) :
    (updateConnectionState s st).reconnectAttempts
      = st.reconnectAttempts := by
  unfold updateConnectionState; split <;> rfl

@[simp]
theorem updateConnectionState_sessionId (s : ConnectionState)
    (st : WState) : (updateConnectionState s st).sessionId = st.sessionId := by
  unfold updateConnectionState; split <;> rfl

@[simp]
theorem updateConnectionState_isReconnecting (s : ConnectionState)
    (st : WState) :
    (updateConnectionState s st).isReconnecting = st.isReconnecting := by
  unfold updateConnectionState; split <;> rfl

@[simp]
theorem updateConnectionState_mediaOperationInProgress (s : ConnectionState)
    (st : WState) :
    (updateConnectionState s st).mediaOperationInProgress
      = st.mediaOperationInProgress := by
  unfold updateConnectionState; split <;> rfl

@[simp]
theorem updateConnectionState_hasPeerConnection (s : ConnectionState)
    (st : WState) :
    (updateConnectionState s st).hasPeerConnection
      = st.hasPeerConnection := by
  unfold updateConnectionState; split <;> rfl

@[simp]
theorem updateConnectionState_recoveryMode (s : ConnectionState)
    (st : WState) :
    (updateConnectionState s st).recoveryMode = st.recoveryMode := by
  unfold updateConnectionState; split <;> rfl

@[simp]
theorem updateConnectionState_pendingCandidates (s : ConnectionState)
    (st : WState) :
    (updateConnectionState s st).pendingCandidates
      = st.pendingCandidates := by
  unfold updateConnectionState; split <;> rfl

@[simp]
theorem scheduleReconnect_sessionId (st : WState) :
    (scheduleReconnect st).sessionId = st.sessionId := by
  simp only [scheduleReconnect]
  split
  · rfl
  · split
    · simp [emitEvent]
    · simp

@[simp]
theorem scheduleReconnect_pendingCandidates (st : WState) :
    (scheduleReconnect st).pendingCandidates = st.pendingCandidates := by
  simp only [scheduleReconnect]
  split
  · rfl
  · split
    · simp [emitEvent]
    · simp

@[simp]
theorem scheduleReconnect_hasPeerConnection (st : WState) :
    (scheduleReconnect st).hasPeerConnection = st.hasPeerConnection := by
  simp only [scheduleReconnect]
  split
  · rfl
  · split
    · simp [emitEvent]
    · simp

@[simp]
theorem scheduleReconnect_mediaOperationInProgress (st : WState) :
    (scheduleReconnect st).mediaOperationInProgress
      = st.mediaOperationInProgress := by
  simp only [scheduleReconnect]
  split
  · rfl
  · split
    · simp [emitEvent]
    · simp

/-! ## Shared behavioural lemmas for `scheduleReconnect` -/

/-- When a reconnect can actually be scheduled and attempts remain, the
timer is set to the backoff delay, the counter advances and the state
becomes `reconnecting`. -/
theorem scheduleReconnect_schedules (st : WState)
    (h1 : st.isReconnecting = false) (h2 : st.reconnectTimer = none)
    (h3 : st.reconnectAttempts < maxReconnectAttempts) :
    (scheduleReconnect st).reconnectTimer
        = some (min (1000 * 2 ^ st.reconnectAttempts) 10000) ∧
    (scheduleReconnect st).reconnectAttempts = st.reconnectAttempts + 1 ∧
    (scheduleReconnect st).connectionState
        = ConnectionState.reconnecting := by
  have hg : ¬ ((st.isReconnecting || st.reconnectTimer.isSome) = true) := by
    simp [h1, h2]
  have hc : ¬ (st.reconnectAttempts + 1 > maxReconnectAttempts) := by
    simp only [maxReconnectAttempts] at h3 ⊢
    omega
  unfold scheduleReconnect
  rw [if_neg hg, if_neg hc]
  refine ⟨?_, ?_, ?_⟩
  · simp
  · simp
  · simp [updateConnectionState_connectionState]

/-- When the attempt cap is already reached, a further required attempt
lands in terminal `failed`, emits `maxReconnectAttemptsReached` last, and
sets no timer. -/
theorem scheduleReconnect_exhausted (st : WState)
    (h1 : st.isReconnecting = false) (h2 : st.reconnectTimer = none)
    (h3 : maxReconnectAttempts ≤ st.reconnectAttempts) :
    (scheduleReconnect st).connectionState = ConnectionState.failed ∧
    (scheduleReconnect st).reconnectTimer = none ∧
    (scheduleReconnect st).emitted.getLast?
        = some WEvent.maxReconnectAttemptsReached := by
  have hg : ¬ ((st.isReconnecting || st.reconnectTimer.isSome) = true) := by
    simp [h1, h2]
  have hc : st.reconnectAttempts + 1 > maxReconnectAttempts := by
    simp only [maxReconnectAttempts] at h3 ⊢
    omega
  unfold scheduleReconnect
  rw [if_neg hg, if_pos hc]
  refine ⟨?_, ?_, ?_⟩
  · simp [emitEvent, updateConnectionState_connectionState]
  · simp [emitEvent, h2]
  · simp [emitEvent]

/-! ## Claim theorems -/

/-- C1: for every state in which a reconnect may actually be scheduled
(no attempt in flight, no pending timer), if fewer than 5 attempts have
been used the controller schedules attempt `n = attempts + 1` with delay
exactly `min (1000 * 2 ^ (n - 1)) 10000` ms (hence 1000, 2000, 4000,
8000, 10000 ms for attempts 1..5) and moves to `reconnecting`; if the 5
attempts are exhausted, a 6th required attempt instead transitions to
terminal `failed`, emits `maxReconnectAttemptsReached` as the last event,
and schedules no timer. -/
theorem scheduleReconnect_backoff (st : WState)
    (h1 : st.isReconnecting = false) (h2 : st.reconnectTimer = none) :
    (st.reconnectAttempts < maxReconnectAttempts →
      (scheduleReconnect st).reconnectTimer
          = some (min (1000 * 2 ^ st.reconnectAttempts) 10000) ∧
      (scheduleReconnect st).reconnectAttempts = st.reconnectAttempts + 1 ∧
      (scheduleReconnect st).connectionState
          = ConnectionState.reconnecting) ∧
    (maxReconnectAttempts ≤ st.reconnectAttempts →
      (scheduleReconnect st).connectionState = ConnectionState.failed ∧
      (scheduleReconnect st).reconnectTimer = none ∧
      (scheduleReconnect st).emitted.getLast?
          = some WEvent.maxReconnectAttemptsReached) :=
  And.intro (fun h3 => scheduleReconnect_schedules st h1 h2 h3)
    (fun h3 => scheduleReconnect_exhausted st h1 h2 h3)

/-- Closed witness for `scheduleReconnect_backoff`: at a concrete state
with 0 attempts used the scheduled delay is 1000 ms; with 4 attempts used
it is 10000 ms; with all 5 used, the controller instead lands in `failed`
with no timer. -/
theorem scheduleReconnect_backoff_witness :
    (scheduleReconnect (mkState ConnectionState.disconnected 0)).reconnectTimer
        = some 1000 ∧
    (scheduleReconnect (mkState ConnectionState.disconnected 4)).reconnectTimer
        = some 10000 ∧
    (scheduleReconnect (mkState ConnectionState.disconnected 5)).connectionState
        = ConnectionState.failed ∧
    (scheduleReconnect (mkState ConnectionState.disconnected 5)).reconnectTimer
        = none := by
  refine ⟨?_, ?_, ?_, ?_⟩
  · exact (((scheduleReconnect_backoff (mkState ConnectionState.disconnected 0)
      rfl rfl).1 (by decide)).1).trans (by decide)
  · exact (((scheduleReconnect_backoff (mkState ConnectionState.disconnected 4)
      rfl rfl).1 (by decide)).1).trans (by decide)
  · exact ((scheduleReconnect_backoff (mkState ConnectionState.disconnected 5)
      rfl rfl).2 (by decide)).1
  · exact (((scheduleReconnect_backoff (mkState ConnectionState.disconnected 5)
      rfl rfl).2 (by decide)).2).1

/-- C2: while the media-operation flag is set, each transient
`disconnected`/`failed` signal from the ICE connection state callback or
the peer connection state callbacks leaves the controller state unchanged
except for at most the internal recovery flag: in particular the
externally visible connection state, the reconnect timer, the attempt
counter and the emitted-event trace are untouched. -/
theorem mediaOperation_suppression (st : WState)
    (h : st.mediaOperationInProgress = true) :
    handleIceConnectionStateChange RTCIceConnectionState.disconnected st
        = st ∧
    handleIceConnectionStateChange RTCIceConnectionState.failed st
        = { st with recoveryMode := true } ∧
    handleDisconnected st = { st with recoveryMode := true } ∧
    handleFailed st = { st with recoveryMode := true } := by
  refine ⟨?_, ?_, ?_, ?_⟩ <;>
    simp [handleIceConnectionStateChange, handleDisconnected, handleFailed, h]

/-- Closed witness for `mediaOperation_suppression` at `mediaState`. -/
theorem mediaOperation_suppression_witness :
    handleIceConnectionStateChange RTCIceConnectionState.disconnected
        mediaState = mediaState ∧
    handleIceConnectionStateChange RTCIceConnectionState.failed mediaState
        = { mediaState with recoveryMode := true } ∧
    handleDisconnected mediaState = { mediaState with recoveryMode := true } ∧
    handleFailed mediaState = { mediaState with recoveryMode := true } :=
  mediaOperation_suppression mediaState rfl

/-- C5: `endMediaOperation` clears the media-operation flag; if a failure
was suppressed during the window (recovery mode set) it clears the
recovery flag and schedules exactly one recovery attempt with a 500 ms
delay (not immediately), leaving the connection state untouched; if no
failure was suppressed it schedules nothing and changes nothing except
the flag itself. -/
theorem endMediaOperation_recovery (st : WState) :
    (st.recoveryMode = true →
      endMediaOperation st
        = { st with
            mediaOperationInProgress := false
            recoveryMode := false
            pendingRecovery := some 500 }) ∧
    (st.recoveryMode = false →
      endMediaOperation st = { st with mediaOperationInProgress := false }) := by
  constructor
  · intro h
    simp [endMediaOperation, h]
  · intro h
    simp [endMediaOperation, h]

/-- Closed witness for `endMediaOperation_recovery`, in both modes. -/
theorem endMediaOperation_recovery_witness :
    endMediaOperation { mediaState with recoveryMode := true }
        = { mediaState with
            mediaOperationInProgress := false
            recoveryMode := false
            pendingRecovery := some 500 } ∧
    endMediaOperation mediaState
        = { mediaState with mediaOperationInProgress := false } :=
  And.intro
    ((endMediaOperation_recovery { mediaState with recoveryMode := true }).1
      rfl)
    ((endMediaOperation_recovery mediaState).2 rfl)

/-! ## C10: the `connectionStateChange` trace never repeats a value -/

theorem updateConnectionState_noDupTraceInv (u : ConnectionState)
    (st : WState) (h : noDupTraceInv st) :
    noDupTraceInv (updateConnectionState u st) := by
  obtain ⟨hchain, hlast⟩ := h
  unfold updateConnectionState
  split
  · next hne =>
    have hsc : stateChanges
        { st with
          connectionState := u
          emitted := st.emitted ++ [WEvent.connectionStateChange u] }
        = stateChanges st ++ [u] := by
      simp [stateChanges, List.filterMap_append]
    constructor
    · rw [hsc]
      refine List.Chain'.append hchain (by simp) ?_
      intro x hx y hy
      simp only [List.head?] at hy
      have hxcs : x = st.connectionState := hlast x hx
      cases hy
      exact fun hxy => hne (by rw [← hxcs, hxy])
    · intro x hx
      rw [hsc] at hx
      simp at hx
      subst hx
      rfl
  · exact ⟨hchain, hlast⟩

theorem applyUpdates_noDupTraceInv (us : List ConnectionState)
    (st : WState) (h : noDupTraceInv st) :
    noDupTraceInv (applyUpdates us st) := by
  induction us generalizing st with
  | nil => exact h
  | cons u us ih =>
      exact ih (updateConnectionState u st)
        (updateConnectionState_noDupTraceInv u st h)

/-- C10: `updateConnectionState` emits a `connectionStateChange` event
exactly when the assigned state differs from the current one, and
consequently, starting from a controller with an empty emitted trace,
after any sequence of state assignments the observed
`connectionStateChange` values never repeat in two consecutive
notifications. -/
theorem connectionStateChange_no_consecutive_dup (us : List ConnectionState)
    (st : WState) (hinit : st.emitted = []) :
    (∀ u, st.connectionState = u → updateConnectionState u st = st) ∧
    (∀ u, st.connectionState ≠ u →
      (updateConnectionState u st).emitted
        = st.emitted ++ [WEvent.connectionStateChange u]) ∧
    (stateChanges (applyUpdates us st)).Chain' (fun a b => a ≠ b) := by
  refine ⟨?_, ?_, ?_⟩
  · intro u hu
    simp [updateConnectionState, hu]
  · intro u hu
    simp [updateConnectionState, hu]
  · have hbase : noDupTraceInv st := by
      constructor
      · simp [stateChanges, hinit]
      · intro x hx
        simp [stateChanges, hinit] at hx
    exact (applyUpdates_noDupTraceInv us st hbase).1

/-- Closed witness for `connectionStateChange_no_consecutive_dup`: a
concrete assignment sequence containing repeats produces a repeat-free
notification trace. -/
theorem connectionStateChange_no_consecutive_dup_witness :
    (stateChanges (applyUpdates
        [ConnectionState.connecting, ConnectionState.connected,
         ConnectionState.connected, ConnectionState.disconnected,
         ConnectionState.disconnected, ConnectionState.reconnecting]
        (mkState ConnectionState.new 0))).Chain' (fun a b => a ≠ b) :=
  (connectionStateChange_no_consecutive_dup
    [ConnectionState.connecting, ConnectionState.connected,
     ConnectionState.connected, ConnectionState.disconnected,
     ConnectionState.disconnected, ConnectionState.reconnecting]
    (mkState ConnectionState.new 0) rfl).2.2

/-! ## Shared lemmas for `connect()` -/

/-- The action trace and outcome of a fully successful `connect()` run
from a state that is neither `connected` nor `connecting`. -/
theorem connect_success_shape (env : ConnectEnv) (st : WState)
    (data : OfferResponse) (sid : String)
    (h1 : st.connectionState ≠ ConnectionState.connected)
    (h2 : st.connectionState ≠ ConnectionState.connecting)
    (ho : env.createOfferResult = Except.ok ())
    (hl : env.setLocalResult = Except.ok ())
    (hr : env.offerResponse = Except.ok data)
    (hsid : data.session_id = some sid)
    (hs : env.setRemoteResult = Except.ok ()) :
    (connect env st).thrown = none ∧
    (connect env st).actions
      = [Action.createPeerConnection, Action.createOffer,
         Action.setLocalDescription,
         Action.waitIceGathering (min env.gatherCompleteTime 2000),
         Action.postOffer st.sessionId, Action.setRemoteDescription]
        ++ st.pendingCandidates.map Action.sendCandidate ∧
    (connect env st).state.pendingCandidates = [] ∧
    (connect env st).state.sessionId = some sid ∧
    (connect env st).state.connectionState = ConnectionState.connecting := by
  simp only [connect, ho, hl, hr, hs, hsid]
  rw [if_neg h1, if_neg h2]
  by_cases hp : st.pendingCandidates = []
  · rw [if_neg]
    · refine ⟨rfl, ?_, ?_, ?_, ?_⟩
      · simp [hp]
      · simp [hp]
      · simp
      · simp [updateConnectionState_connectionState]
    · simp [hp]
  · rw [if_pos]
    · refine ⟨rfl, ?_, ?_, ?_, ?_⟩
      · simp
      · simp
      · simp
      · simp [updateConnectionState_connectionState]
    · constructor
      · simpa using hp
      · simp

/-! ## C4: the connect() flow -/

/-- C4: `connect()` is a no-op when already `connected` or `connecting`;
otherwise it transitions to `connecting`, creates a fresh peer
connection, produces an offer, sets the local description, waits for ICE
gathering completion raced against a 2-second timeout, posts the offer
carrying the stored session id, applies the returned answer as remote
description, and flushes (then clears) every candidate queued before a
session id existed; nothing is thrown. -/
theorem connect_offer_flow (env : ConnectEnv) (st : WState)
    (data : OfferResponse) (sid : String) :
    (st.connectionState = ConnectionState.connected →
      connect env st = { state := st, actions := [], thrown := none }) ∧
    (st.connectionState = ConnectionState.connecting →
      connect env st = { state := st, actions := [], thrown := none }) ∧
    (st.connectionState ≠ ConnectionState.connected →
     st.connectionState ≠ ConnectionState.connecting →
     env.createOfferResult = Except.ok () →
     env.setLocalResult = Except.ok () →
     env.offerResponse = Except.ok data →
     data.session_id = some sid →
     env.setRemoteResult = Except.ok () →
      (connect env st).thrown = none ∧
      (connect env st).actions
        = [Action.createPeerConnection, Action.createOffer,
           Action.setLocalDescription,
           Action.waitIceGathering (min env.gatherCompleteTime 2000),
           Action.postOffer st.sessionId, Action.setRemoteDescription]
          ++ st.pendingCandidates.map Action.sendCandidate ∧
      (connect env st).state.pendingCandidates = [] ∧
      (connect env st).state.sessionId = some sid ∧
      (connect env st).state.connectionState = ConnectionState.connecting) := by
  refine ⟨?_, ?_, ?_⟩
  · intro h
    simp [connect, h]
  · intro h
    simp [connect, h]
  · intro h1 h2 ho hl hr hsid hs
    exact connect_success_shape env st data sid h1 h2 ho hl hr hsid hs

/-- Closed witness for `connect_offer_flow`: the concrete successful run
from a disconnected state with one queued candidate. -/
theorem connect_offer_flow_witness :
    (connect envOkC stDiscC).thrown = none ∧
    (connect envOkC stDiscC).actions
      = [Action.createPeerConnection, Action.createOffer,
         Action.setLocalDescription, Action.waitIceGathering 500,
         Action.postOffer (some "sess-1"), Action.setRemoteDescription,
         Action.sendCandidate cand1] ∧
    (connect envOkC stDiscC).state.pendingCandidates = [] ∧
    (connect envOkC stDiscC).state.sessionId = some "sess-1" := by
  have h := (connect_offer_flow envOkC stDiscC okResponse "sess-1").2.2
    (by decide) (by decide) rfl rfl rfl rfl rfl
  exact ⟨h.1, h.2.1.trans (by decide), h.2.2.1, h.2.2.2.1⟩

/-- Behaviour of the `catch` branch of `connect()`. -/
theorem connectCatch_spec (e : String) (acts : List Action) (st : WState) :
    (connectCatch e st acts).thrown = some e ∧
    (connectCatch e st acts).actions = acts ∧
    (st.mediaOperationInProgress = false →
      (connectCatch e st acts).state.hasPeerConnection = false ∧
      (st.isReconnecting = false → st.reconnectTimer = none →
       st.reconnectAttempts < maxReconnectAttempts →
        (connectCatch e st acts).state.reconnectTimer
            = some (min (1000 * 2 ^ st.reconnectAttempts) 10000) ∧
        (connectCatch e st acts).state.connectionState
            = ConnectionState.reconnecting)) ∧
    (st.mediaOperationInProgress = true →
      (connectCatch e st acts).state.recoveryMode = true ∧
      (connectCatch e st acts).state.reconnectTimer = st.reconnectTimer ∧
      (connectCatch e st acts).state.hasPeerConnection
          = st.hasPeerConnection ∧
      (connectCatch e st acts).state.connectionState
          = ConnectionState.failed) := by
  by_cases hm : st.mediaOperationInProgress = true
  · have hcond : ¬ ((!(updateConnectionState ConnectionState.failed
        st).mediaOperationInProgress) = true) := by simp [hm]
    simp only [connectCatch]
    rw [if_neg hcond]
    refine ⟨rfl, rfl, ?_, ?_⟩
    · intro h
      rw [hm] at h
      cases h
    · intro _
      refine ⟨rfl, by simp, by simp, ?_⟩
      simp [updateConnectionState_connectionState]
  · have hm0 : st.mediaOperationInProgress = false := by
      simpa using hm
    have hcond : (!(updateConnectionState ConnectionState.failed
        st).mediaOperationInProgress) = true := by simp [hm0]
    simp only [connectCatch]
    rw [if_pos hcond]
    refine ⟨rfl, rfl, ?_, ?_⟩
    · intro _
      constructor
      · simp [cleanupPeerConnection]
      · intro hr ht ha
        have h1 : (cleanupPeerConnection
            (updateConnectionState ConnectionState.failed st)).isReconnecting
            = false := by simp [cleanupPeerConnection, hr]
        have h2 : (cleanupPeerConnection
            (updateConnectionState ConnectionState.failed st)).reconnectTimer
            = none := by simp [cleanupPeerConnection, ht]
        have h3 : (cleanupPeerConnection
            (updateConnectionState ConnectionState.failed st)).reconnectAttempts
            < maxReconnectAttempts := by
          simpa [cleanupPeerConnection] using ha
        obtain ⟨t1, t2, t3⟩ := scheduleReconnect_schedules _ h1 h2 h3
        constructor
        · rw [t1]
          simp [cleanupPeerConnection]
        · exact t3
    · intro h
      rw [hm0] at h
      cases h

/-- `connectCatch_spec`, transported along projection equalities so it can
be read off against the pre-`connect()` state. -/
theorem connectCatch_from (e : String) (acts : List Action)
    (stX st : WState)
    (hm : stX.mediaOperationInProgress = st.mediaOperationInProgress)
    (hr : stX.isReconnecting = st.isReconnecting)
    (ht : stX.reconnectTimer = st.reconnectTimer)
    (ha : stX.reconnectAttempts = st.reconnectAttempts)
    (hp : stX.hasPeerConnection = true) :
    (connectCatch e stX acts).thrown.isSome = true ∧
    (st.mediaOperationInProgress = false →
      (connectCatch e stX acts).state.hasPeerConnection = false ∧
      (st.isReconnecting = false → st.reconnectTimer = none →
       st.reconnectAttempts < maxReconnectAttempts →
        (connectCatch e stX acts).state.reconnectTimer
            = some (min (1000 * 2 ^ st.reconnectAttempts) 10000) ∧
        (connectCatch e stX acts).state.connectionState
            = ConnectionState.reconnecting)) ∧
    (st.mediaOperationInProgress = true →
      (connectCatch e stX acts).state.recoveryMode = true ∧
      (connectCatch e stX acts).state.reconnectTimer = st.reconnectTimer ∧
      (connectCatch e stX acts).state.hasPeerConnection = true ∧
      (connectCatch e stX acts).state.connectionState
          = ConnectionState.failed) := by
  obtain ⟨c1, c2, c3, c4⟩ := connectCatch_spec e acts stX
  refine ⟨by simp [c1], ?_, ?_⟩
  · intro h
    obtain ⟨d1, d2⟩ := c3 (hm.trans h)
    refine ⟨d1, ?_⟩
    intro hr0 ht0 ha0
    have hlt : stX.reconnectAttempts < maxReconnectAttempts := by
      rw [ha]; exact ha0
    have := d2 (hr.trans hr0) (ht.trans ht0) hlt
    rw [ha] at this
    exact this
  · intro h
    obtain ⟨d1, d2, d3, d4⟩ := c4 (hm.trans h)
    exact ⟨d1, d2.trans ht, d3.trans hp, d4⟩

/-! ## C6: failure of any connect() step -/

/-- C6: when any awaited step of `connect()` fails, the error is
propagated to the caller; outside a media operation the peer connection
is torn down and a reconnect is scheduled (when the scheduling guard
permits, the timer carries the backoff delay and the state becomes
`reconnecting`); during a media operation the recovery-pending flag is
set instead, with no teardown and no timer change. -/
theorem connect_failure_handling (env : ConnectEnv) (st : WState)
    (h1 : st.connectionState ≠ ConnectionState.connected)
    (h2 : st.connectionState ≠ ConnectionState.connecting)
    (hfail : connectEnvOk env = false) :
    (connect env st).thrown.isSome = true ∧
    (st.mediaOperationInProgress = false →
      (connect env st).state.hasPeerConnection = false ∧
      (st.isReconnecting = false → st.reconnectTimer = none →
       st.reconnectAttempts < maxReconnectAttempts →
        (connect env st).state.reconnectTimer
            = some (min (1000 * 2 ^ st.reconnectAttempts) 10000) ∧
        (connect env st).state.connectionState
            = ConnectionState.reconnecting)) ∧
    (st.mediaOperationInProgress = true →
      (connect env st).state.recoveryMode = true ∧
      (connect env st).state.reconnectTimer = st.reconnectTimer ∧
      (connect env st).state.hasPeerConnection = true ∧
      (connect env st).state.connectionState = ConnectionState.failed) := by
  simp only [connect]
  rw [if_neg h1, if_neg h2]
  cases hco : env.createOfferResult with
  | error e =>
      exact connectCatch_from e _ _ st (by simp) (by simp) (by simp)
        (by simp) (by simp)
  | ok u =>
    cases hsl : env.setLocalResult with
    | error e =>
        exact connectCatch_from e _ _ st (by simp) (by simp) (by simp)
          (by simp) (by simp)
    | ok v =>
      cases hor : env.offerResponse with
      | error e =>
          exact connectCatch_from e _ _ st (by simp) (by simp) (by simp)
            (by simp) (by simp)
      | ok data =>
        cases hsr : env.setRemoteResult with
        | error e =>
            cases hsid : data.session_id with
            | none =>
                simp only [hsid]
                exact connectCatch_from e _ _ st (by simp) (by simp)
                  (by simp) (by simp) (by simp)
            | some sid =>
                simp only [hsid]
                exact connectCatch_from e _ _ st (by simp) (by simp)
                  (by simp) (by simp) (by simp)
        | ok w =>
            exact absurd hfail (by simp [connectEnvOk, hco, hsl, hor, hsr])

/-- Closed witness for `connect_failure_handling`: a failing signaling
round-trip outside a media operation tears down and schedules the first
backoff delay; the same failure during a media operation only sets the
recovery flag. -/
theorem connect_failure_handling_witness :
    (connect envFailC stDiscC).thrown.isSome = true ∧
    (connect envFailC stDiscC).state.hasPeerConnection = false ∧
    (connect envFailC stDiscC).state.reconnectTimer = some 1000 ∧
    (connect envFailC stDiscC).state.connectionState
        = ConnectionState.reconnecting ∧
    (connect envFailC (beginMediaOperation stDiscC)).state.recoveryMode
        = true := by
  have h := connect_failure_handling envFailC stDiscC (by decide) (by decide)
    rfl
  have hm := connect_failure_handling envFailC (beginMediaOperation stDiscC)
    (by decide) (by decide) rfl
  refine ⟨h.1, (h.2.1 rfl).1, ?_, ?_, (hm.2.2 rfl).1⟩
  · exact (((h.2.1 rfl).2 rfl rfl (by decide)).1).trans (by decide)
  · exact ((h.2.1 rfl).2 rfl rfl (by decide)).2

/-- The catch branch reports exactly the actions performed so far. -/
theorem connectCatch_actions (e : String) (st : WState)
    (acts : List Action) : (connectCatch e st acts).actions = acts := by
  simp only [connectCatch]
  split <;> rfl

/-- Any offer posted by `connect()` carries the session id stored before
the call. -/
theorem connect_postOffer_sessionId (env : ConnectEnv) (st : WState)
    (sid : Option String)
    (h : Action.postOffer sid ∈ (connect env st).actions) :
    sid = st.sessionId := by
  simp only [connect] at h
  iterate 12 all_goals try split at h
  all_goals try rw [connectCatch_actions] at h
  all_goals simp_all

/-- `attemptReconnect` performs exactly the actions of the underlying
`connect()` call. -/
theorem attemptReconnect_actions (env : ConnectEnv) (st : WState) :
    (attemptReconnect env st).actions
      = (connect env
          { cleanupPeerConnection st with sessionId := st.sessionId }).actions := by
  simp only [attemptReconnect]
  cases h : (connect env
      { cleanupPeerConnection st with sessionId := st.sessionId }).thrown <;>
    rfl

/-! ## C8: the session id survives reconnects -/

/-- C8: the stored session id is untouched by peer-connection cleanup,
every offer posted by `forceReconnect` or by an automatic
`attemptReconnect` carries the pre-existing session id, and the id is
cleared exactly by the full cleanup of `disconnect()`. -/
theorem session_id_preserved (env : ConnectEnv) (st : WState) :
    (cleanupPeerConnection st).sessionId = st.sessionId ∧
    (cleanupConnection st).sessionId = none ∧
    (∀ sid, Action.postOffer sid ∈ (forceReconnect env st).actions →
      sid = st.sessionId) ∧
    (∀ sid, Action.postOffer sid ∈ (attemptReconnect env st).actions →
      sid = st.sessionId) ∧
    (st.connectionState ≠ ConnectionState.closed →
     st.connectionState ≠ ConnectionState.new →
      (disconnect st).1.sessionId = none) := by
  refine ⟨rfl, rfl, ?_, ?_, ?_⟩
  · intro sid h
    exact connect_postOffer_sessionId env
      { cleanupPeerConnection st with sessionId := st.sessionId } sid h
  · intro sid h
    rw [attemptReconnect_actions] at h
    exact connect_postOffer_sessionId env
      { cleanupPeerConnection st with sessionId := st.sessionId } sid h
  · intro hc hn
    have hcond : ¬ (st.connectionState = ConnectionState.closed ∨
        st.connectionState = ConnectionState.new) := by
      intro hx
      cases hx with
      | inl hx => exact hc hx
      | inr hx => exact hn hx
    simp only [disconnect]
    rw [if_neg hcond]
    simp [cleanupConnection]

/-- Closed witness for `session_id_preserved` at the concrete
disconnected state. -/
theorem session_id_preserved_witness :
    (cleanupPeerConnection stDiscC).sessionId = some "sess-1" ∧
    (cleanupConnection stDiscC).sessionId = none ∧
    (some "sess-1" : Option String) = stDiscC.sessionId ∧
    (disconnect stDiscC).1.sessionId = none := by
  have h := session_id_preserved envOkC stDiscC
  refine ⟨h.1.trans rfl, h.2.1, ?_, ?_⟩
  · exact h.2.2.1 (some "sess-1") (by decide)
  · exact h.2.2.2.2 (by decide) (by decide)

/-! ## C3: the frame producer degrades, never raises -/

/-- State evolution under consecutive capture failures: the cache is
kept, the error counter counts the failures, and the producer stays
active exactly while the counter is below the threshold. -/
theorem runFailures_spec (p : FrameProducer) (f : Frame)
    (hc : p.cachedFrame = some f) (he : p.errorCount = 0)
    (ha : p.streamActive = true) :
    ∀ n, n ≤ errorThreshold →
      (runFailures n p).cachedFrame = some f ∧
      (runFailures n p).errorCount = n ∧
      (runFailures n p).streamActive = decide (n < errorThreshold) := by
  intro n
  induction n with
  | zero =>
      intro _
      refine ⟨hc, he, ?_⟩
      show p.streamActive = decide (0 < errorThreshold)
      rw [ha]
      simp [errorThreshold]
  | succ k ih =>
      intro hk
      obtain ⟨c1, c2, c3⟩ := ih (Nat.le_of_succ_le hk)
      have hklt : k < errorThreshold := by
        simp only [errorThreshold] at hk ⊢
        omega
      have hact : (runFailures k p).streamActive = true := by
        rw [c3]
        simpa using hklt
      simp only [runFailures, recv, hact, Bool.not_true]
      refine ⟨?_, ?_, ?_⟩
      · simpa using c1
      · simpa using c2
      · simp [c2]

/-- C3: a pull never propagates a capture failure.  Starting from an
active producer with a good cached frame and a clear error counter: the
first 10 failing pulls each return the last good frame; the producer
stays active through the first 9 failures and goes inactive at the 10th;
once inactive, every pull (whatever the capture outcome) returns the
cached frame and leaves the producer unchanged, until `restart` clears
the error counter and reactivates production with the cache intact. -/
theorem recv_degrades_never_raises (p : FrameProducer) (f : Frame)
    (hc : p.cachedFrame = some f) (he : p.errorCount = 0)
    (ha : p.streamActive = true) :
    (∀ n, n < errorThreshold →
      (recv CaptureOutcome.failure (runFailures n p)).1 = f) ∧
    (∀ n, n < errorThreshold → (runFailures n p).streamActive = true) ∧
    (runFailures errorThreshold p).streamActive = false ∧
    (∀ outcome,
      (recv outcome (runFailures errorThreshold p)).1 = f ∧
      (recv outcome (runFailures errorThreshold p)).2
          = runFailures errorThreshold p) ∧
    (restart (runFailures errorThreshold p)).errorCount = 0 ∧
    (restart (runFailures errorThreshold p)).streamActive = true ∧
    (restart (runFailures errorThreshold p)).cachedFrame = some f := by
  have hspec := runFailures_spec p f hc he ha
  have hten := hspec errorThreshold (Nat.le_refl _)
  have hinactive : (runFailures errorThreshold p).streamActive = false := by
    rw [hten.2.2]
    simp
  refine ⟨?_, ?_, hinactive, ?_, rfl, rfl, hten.1⟩
  · intro n hn
    obtain ⟨c1, c2, c3⟩ := hspec n (Nat.le_of_lt hn)
    have hact : (runFailures n p).streamActive = true := by
      rw [c3]
      simpa using hn
    simp [recv, hact, c1]
  · intro n hn
    rw [(hspec n (Nat.le_of_lt hn)).2.2]
    simpa using hn
  · intro outcome
    constructor
    · simp [recv, hinactive, hten.1]
    · simp [recv, hinactive]

/-- Closed witness for `recv_degrades_never_raises` on `producerC`. -/
theorem recv_degrades_never_raises_witness :
    (recv CaptureOutcome.failure (runFailures 3 producerC)).1
        = Frame.real 7 ∧
    (runFailures 9 producerC).streamActive = true ∧
    (runFailures 10 producerC).streamActive = false ∧
    (recv CaptureOutcome.failure (runFailures 10 producerC)).1
        = Frame.real 7 ∧
    (restart (runFailures 10 producerC)).streamActive = true := by
  have h := recv_degrades_never_raises producerC (Frame.real 7) rfl rfl rfl
  exact ⟨h.1 3 (by decide), h.2.1 9 (by decide), h.2.2.1,
    (h.2.2.2.1 CaptureOutcome.failure).1, h.2.2.2.2.2.1⟩

/-! ## C7: the health sweep removes exactly failed/closed sessions -/

/-- C7: a health-check sweep keeps a session entry exactly when its
connection state is neither `failed` nor `closed`; in particular entries
in state `disconnected`, `connecting`, `reconnecting` or `connected` are
untouched. -/
theorem health_check_removes_dead (sessions : List (String × ConnectionState))
    (c : String) (s : ConnectionState) :
    ((c, s) ∈ health_check sessions ↔
      (c, s) ∈ sessions ∧
        ¬(s = ConnectionState.failed ∨ s = ConnectionState.closed)) ∧
    ((s = ConnectionState.disconnected ∨ s = ConnectionState.connecting ∨
      s = ConnectionState.reconnecting ∨ s = ConnectionState.connected) →
      ((c, s) ∈ health_check sessions ↔ (c, s) ∈ sessions)) := by
  have h1 : (c, s) ∈ health_check sessions ↔
      (c, s) ∈ sessions ∧
        ¬(s = ConnectionState.failed ∨ s = ConnectionState.closed) := by
    simp [health_check, List.mem_filter, not_or]
  refine ⟨h1, ?_⟩
  intro hs
  rw [h1]
  have hok : ¬(s = ConnectionState.failed ∨ s = ConnectionState.closed) := by
    rcases hs with h | h | h | h <;> subst h <;> simp
  simp [hok]

/-- Closed witness for `health_check_removes_dead` on `registryC`. -/
theorem health_check_removes_dead_witness :
    ("b", ConnectionState.disconnected) ∈ health_check registryC ∧
    ("c", ConnectionState.failed) ∉ health_check registryC ∧
    ("d", ConnectionState.closed) ∉ health_check registryC := by
  refine ⟨?_, ?_, ?_⟩
  · exact ((health_check_removes_dead registryC "b"
      ConnectionState.disconnected).2 (Or.inl rfl)).mpr (by decide)
  · intro hmem
    exact ((health_check_removes_dead registryC "c"
      ConnectionState.failed).1.mp hmem).2 (Or.inl rfl)
  · intro hmem
    exact ((health_check_removes_dead registryC "d"
      ConnectionState.closed).1.mp hmem).2 (Or.inr rfl)

/-! ## C9: closing a session is idempotent -/

/-- C9: `close_peer_connection` never fails — in particular not on an
unknown or already-closed id — and a second invocation on the same id
returns the registry unchanged with no error. -/
theorem close_peer_connection_idempotent (client : String)
    (reg : List (String × ConnectionState)) :
    exceptOk (close_peer_connection client reg) = true ∧
    ∀ reg1, close_peer_connection client reg = Except.ok reg1 →
      close_peer_connection client reg1 = Except.ok reg1 := by
  constructor
  · rfl
  · intro reg1 h
    simp only [close_peer_connection] at h ⊢
    cases h
    congr 1
    simp [List.filter_filter]

/-- Closed witness for `close_peer_connection_idempotent`: closing an
unknown id succeeds, and re-closing an already-removed id returns the
registry unchanged. -/
theorem close_peer_connection_idempotent_witness :
    exceptOk (close_peer_connection "zzz" registryC) = true ∧
    close_peer_connection "c"
        (registryC.filter (fun cs => decide (cs.1 ≠ "c")))
      = Except.ok (registryC.filter (fun cs => decide (cs.1 ≠ "c"))) := by
  refine ⟨(close_peer_connection_idempotent "zzz" registryC).1, ?_⟩
  exact (close_peer_connection_idempotent "c" registryC).2 _ rfl

end Camstream